import Mathlib

/-!
Shallow embedding of the numenta-apps sources under review:

* src/unicorn/frontend/browser/actions/StartModel.js — the start-model
  action: stats resolution (default export) and the data streaming routine
  (streamData), together with its channel-wrapper helpers
  (getMetricFromDatabase, getMetricStatsFromFilesystem,
  putMetricStatsIntoDatabase, getMetricDataFromDatabase).
* src/unnamed/part_000 — the Chart React widget (componentDidMount and
  the private method chartInitalize, name kept as spelled in the source).

External collaborators (database client, filesystem client, the js-csp
channel library, the Flux dispatcher) are modelled by their observable
callback inputs: every collaborator callback outcome is an explicit
argument of the embedded function, and the side effects the code performs
(SendData / StopModel action dispatches, promise settle attempts, database
writes) are returned as explicit traces.
-/

/-- An opaque JavaScript error value delivered by a collaborator callback
(file read errors, JSON parse errors, database errors). Only its identity
matters to the orchestration code, which passes it through unchanged or
wraps it. -/
structure JsError where
  msg : String
deriving DecidableEq

/-- JavaScript strings, modelled just finely enough for the date round
trip in StartModel.js: Date.prototype.toISOString renders a valid date as
an iso string carrying its millisecond value, and the Date constructor
parses it back; every other string is raw. -/
inductive JsStr where
  | iso (millis : Int)
  | raw (s : String)
deriving DecidableEq

/-- The JavaScript values that flow through the dynamic field accesses of
the code under review: undefined (absent field), null (the JSON rendering
of NaN), strings, and numbers. -/
inductive JSVal where
  | undef
  | vnull
  | vstr (s : JsStr)
  | vnum (q : ℚ)
deriving DecidableEq

/-- A JavaScript number: either a rational value or NaN. -/
inductive JNum where
  | num (q : ℚ)
  | nan
deriving DecidableEq

/-- NaN-propagating subtraction on JavaScript numbers. -/
def jsub : JNum → JNum → JNum
  | JNum.num a, JNum.num b => JNum.num (a - b)
  | _, _ => JNum.nan

/-- NaN-propagating addition on JavaScript numbers. -/
def jadd : JNum → JNum → JNum
  | JNum.num a, JNum.num b => JNum.num (a + b)
  | _, _ => JNum.nan

/-- NaN-propagating multiplication on JavaScript numbers. -/
def jmul : JNum → JNum → JNum
  | JNum.num a, JNum.num b => JNum.num (a * b)
  | _, _ => JNum.nan

/-- Division by 1000, as in getTime() / 1000; NaN divided by 1000 is NaN. -/
def jdiv1000 : JNum → JNum
  | JNum.num a => JNum.num (a / 1000)
  | JNum.nan => JNum.nan

/-- Value of a decimal digit character, if any. -/
def digitVal (c : Char) : Option Nat :=
  if 48 ≤ c.toNat ∧ c.toNat ≤ 57 then some (c.toNat - 48) else none

/-- Accumulating decimal parse over a character list; fails on any
non-digit character. -/
def parseNatChars (acc : Nat) : List Char → Option Nat
  | [] => some acc
  | c :: cs =>
      match digitVal c with
      | some d => parseNatChars (acc * 10 + d) cs
      | none => none

/-- Integer denotation of a string: an optional leading minus sign
followed by at least one decimal digit. This is the abstraction used for
the engine date and number parsers on raw strings: a string of digits
denotes a millisecond or numeric value, anything else does not parse. -/
def parseIntString (s : String) : Option Int :=
  match s.data with
  | [] => none
  | c :: cs =>
      if c = '-' then
        match cs with
        | [] => none
        | _ :: _ => (parseNatChars 0 cs).map (fun n => -(n : Int))
      else (parseNatChars 0 (c :: cs)).map (fun n => (n : Int))

/-- The millisecond value of new Date(v), or none for an Invalid Date.
new Date(undefined) is Invalid Date; new Date(null) is the epoch; an iso
string parses back to its millisecond value; other strings parse to an
integer when they denote one (an abstraction of the engine date parser);
a numeric argument is taken as milliseconds. -/
def newDateTime : JSVal → Option Int
  | JSVal.undef => none
  | JSVal.vnull => some 0
  | JSVal.vstr (JsStr.iso t) => some t
  | JSVal.vstr (JsStr.raw s) => parseIntString s
  | JSVal.vnum q => some q.floor

/-- Date.prototype.getTime(): the millisecond value, or NaN for an
Invalid Date. -/
def getTime : Option Int → JNum
  | some t => JNum.num t
  | none => JNum.nan

/-- Number(v).valueOf(): NaN for undefined, 0 for null, identity on
numbers; a raw numeric string coerces to its value, any other string to
NaN. -/
def toNumber : JSVal → JNum
  | JSVal.undef => JNum.nan
  | JSVal.vnull => JNum.num 0
  | JSVal.vnum q => JNum.num q
  | JSVal.vstr (JsStr.raw s) =>
      match parseIntString s with
      | some n => JNum.num n
      | none => JNum.nan
  | JSVal.vstr (JsStr.iso _) => JNum.nan

/-- The JSON round trip applied to a stored numeric field:
JSON.stringify maps NaN to null, and numbers to themselves. -/
def jnumJson : JNum → JSVal
  | JNum.num q => JSVal.vnum q
  | JNum.nan => JSVal.vnull

/-- The model object held by the ModelStore: identifier, source filename,
metric field name and timestamp field name (spec section 3). -/
structure Model where
  modelId : String
  filename : String
  metric : String
  timestampField : String
deriving DecidableEq

/-- Modelled from the spec: Utils.generateModelId is repository code not
under src; the spec describes it as a deterministic identifier derived
from (filename, metric name). -/
def generateModelId (filename metric : String) : String :=
  filename ++ "!" ++ metric

/-- Modelled from the spec: Utils.generateDataId is repository code not
under src; the spec describes a derived record identity computed per
record, here derived deterministically from filename, metric and the
record timestamp. -/
def generateDataId (filename metric : String) (millis : Int) : String :=
  filename ++ "!" ++ metric ++ "!" ++ toString millis

/-- A metric record as returned by databaseClient.getMetric: the min and
max fields are optional (the code tests for their presence with the in
operator), and the remaining fields read while rebuilding the put payload
are plain JavaScript values (absent fields read as undefined). -/
structure MetricRec where
  min : Option ℚ
  max : Option ℚ
  uid : JSVal
  fileUid : JSVal
  name : JSVal
  type : JSVal
deriving DecidableEq

/-- The error argument of a database getMetric callback: the wrapped
error value together with whether the object has a notFound key (the code
tests membership with the in operator). -/
structure DbCallbackError where
  notFoundKey : Bool
  err : JsError
deriving DecidableEq

/-- What getMetricFromDatabase puts on its channel: either a
DatabaseGetError wrapper, or the raw results value (which is absent on a
not-found lookup). -/
inductive MetricLookupResult where
  | errResult (e : JsError)
  | found (results : Option MetricRec)
deriving DecidableEq

/-- getMetricFromDatabase (StartModel.js lines 44-59): the callback puts
a DatabaseGetError wrapper on the channel when the error is present and
lacks a notFound key, and otherwise puts the raw results through. The
callback input is the pair (error, results). -/
def getMetricFromDatabase
    (cb : Option DbCallbackError × Option MetricRec) : MetricLookupResult :=
  match cb.1 with
  | some e =>
      if e.notFoundKey then MetricLookupResult.found cb.2
      else MetricLookupResult.errResult e.err
  | none => MetricLookupResult.found cb.2

/-- A per-metric statistics entry {min, max}. -/
structure StatBounds where
  min : ℚ
  max : ℚ
deriving DecidableEq

/-- The statistics object returned by fileClient.getStatistics: a map
from metric field names to bounds, modelled as an association list. -/
structure StatsResult where
  entries : List (String × StatBounds)
deriving DecidableEq

/-- Membership test (the JavaScript in operator) on a statistics object. -/
def StatsResult.hasMetric (s : StatsResult) (m : String) : Bool :=
  (s.entries.find? (fun p => p.1 == m)).isSome

/-- Field read on a statistics object; only used after a membership
check, with an arbitrary default for the absent case. -/
def StatsResult.get (s : StatsResult) (m : String) : StatBounds :=
  match s.entries.find? (fun p => p.1 == m) with
  | some p => p.2
  | none => StatBounds.mk 0 0

/-- getMetricStatsFromFilesystem (StartModel.js lines 64-78): on a
callback error the channel receives a FilesystemGetError wrapper,
otherwise the raw statistics. The callback input is (error, stats). -/
def getMetricStatsFromFilesystem
    (cb : Option JsError × StatsResult) : Sum JsError StatsResult :=
  match cb.1 with
  | some e => Sum.inl e
  | none => Sum.inr cb.2

/-- putMetricStatsIntoDatabase (StartModel.js lines 83-97): on a callback
error the channel receives a DatabasePutError wrapper, otherwise true. -/
def putMetricStatsIntoDatabase (cb : Option JsError) : Sum JsError Bool :=
  match cb with
  | some e => Sum.inl e
  | none => Sum.inr true

/-- The metric payload handed to databaseClient.putMetric by the stats
resolution stage (StartModel.js lines 266-277): the cached record fields
are copied, model uid is the action parameter, and min and max come from
the resolved statistics. -/
structure MetricPut where
  uid : JSVal
  fileUid : JSVal
  modelUid : String
  name : JSVal
  type : JSVal
  min : ℚ
  max : ℚ
deriving DecidableEq

/-- The values the start-model promises can be rejected with: raw
JavaScript errors (file read, parse, putMetricDatas), the three wrapper
kinds, or — on the missing-metric path — the raw statistics object
itself. -/
inductive RejectValue where
  | jsError (e : JsError)
  | dbGetError (e : JsError)
  | dbPutError (e : JsError)
  | fsGetError (e : JsError)
  | statsObject (s : StatsResult)
deriving DecidableEq

/-- Whether a rejection value is a FilesystemGetError wrapper. -/
def RejectValue.isFsWrapper : RejectValue → Bool
  | RejectValue.fsGetError _ => true
  | _ => false

/-- The outcome of the stats resolution stage: a rejection of the outer
promise, readiness to create the model with resolved bounds, or a crash
(an uncaught TypeError thrown inside the go block). -/
inductive ResolveOutcome where
  | rejected (v : RejectValue)
  | ready (min max : ℚ)
  | crashed
deriving DecidableEq

/-- The observable trace of the stats resolution stage: how many
getStatistics calls were made, the putMetric payloads written, and the
outcome. -/
structure ResolveTrace where
  fsStatCalls : Nat
  putCalls : List MetricPut
  outcome : ResolveOutcome
deriving DecidableEq

/-- The cache-miss arm of the stats resolution stage (StartModel.js lines
250-284): fetch statistics from the filesystem; reject with the channel
value when it is an Error or when the statistics lack the metric field;
otherwise rebuild the metric payload from the cached record — a step that
throws a TypeError when the lookup produced no record at all, since the
code dereferences metric.uid — and write it back, rejecting with a
DatabasePutError wrapper on a write failure. -/
def resolveStatsMiss (model : Model) (results : Option MetricRec)
    (statsCb : Option JsError × StatsResult) (putCb : Option JsError) :
    ResolveTrace :=
  match getMetricStatsFromFilesystem statsCb with
  | Sum.inl e => ResolveTrace.mk 1 [] (ResolveOutcome.rejected (RejectValue.fsGetError e))
  | Sum.inr stats =>
      if stats.hasMetric model.metric then
        match results with
        | none => ResolveTrace.mk 1 [] ResolveOutcome.crashed
        | some m =>
            let b := stats.get model.metric
            let payload : MetricPut :=
              MetricPut.mk m.uid m.fileUid model.modelId m.name m.type b.min b.max
            match putMetricStatsIntoDatabase putCb with
            | Sum.inl e =>
                ResolveTrace.mk 1 [payload]
                  (ResolveOutcome.rejected (RejectValue.dbPutError e))
            | Sum.inr _ =>
                ResolveTrace.mk 1 [payload] (ResolveOutcome.ready b.min b.max)
      else
        ResolveTrace.mk 1 [] (ResolveOutcome.rejected (RejectValue.statsObject stats))

/-- The stats resolution stage of the default export (StartModel.js lines
236-284): take the metric lookup channel; reject DatabaseGetError
wrappers; use the cached bounds when the record is present with both min
and max; otherwise run the cache-miss arm. -/
def resolveStats (model : Model)
    (metricCb : Option DbCallbackError × Option MetricRec)
    (statsCb : Option JsError × StatsResult) (putCb : Option JsError) :
    ResolveTrace :=
  match getMetricFromDatabase metricCb with
  | MetricLookupResult.errResult e =>
      ResolveTrace.mk 0 [] (ResolveOutcome.rejected (RejectValue.dbGetError e))
  | MetricLookupResult.found results =>
      match results with
      | some m =>
          match m.min, m.max with
          | some mn, some mx => ResolveTrace.mk 0 [] (ResolveOutcome.ready mn mx)
          | some _, none => resolveStatsMiss model results statsCb putCb
          | none, _ => resolveStatsMiss model results statsCb putCb
      | none => resolveStatsMiss model results statsCb putCb

/-- A cached metric data row, with the exact field set the streaming code
pushes (StartModel.js lines 181-188): a derived uid, the metric uid, the
sequence number, the iso-rendered timestamp, and the metric and display
values (which pass through a JSON round trip on their way to and from the
database). -/
structure MetricDataRow where
  uid : String
  metricUid : String
  rowid : Nat
  timestamp : JsStr
  metricValue : JNum
  displayValue : JNum
deriving DecidableEq

/-- Dynamic field access on a cached row, as a JavaScript object: the six
stored keys are readable, every other key reads as undefined. -/
def MetricDataRow.get (r : MetricDataRow) (field : String) : JSVal :=
  if field = "uid" then JSVal.vstr (JsStr.raw r.uid)
  else if field = "metric_uid" then JSVal.vstr (JsStr.raw r.metricUid)
  else if field = "rowid" then JSVal.vnum r.rowid
  else if field = "timestamp" then JSVal.vstr r.timestamp
  else if field = "metric_value" then jnumJson r.metricValue
  else if field = "display_value" then jnumJson r.displayValue
  else JSVal.undef

/-- A parsed JSON record from the source file: a JavaScript object,
modelled as an association list of fields. -/
structure JsonRow where
  fields : List (String × JSVal)
deriving DecidableEq

/-- Dynamic field access on a parsed record; absent fields read as
undefined. -/
def JsonRow.get (r : JsonRow) (k : String) : JSVal :=
  match r.fields.find? (fun p => p.1 == k) with
  | some p => p.2
  | none => JSVal.undef

/-- The raw data argument of one fileClient.getData callback with truthy
data: either a string that JSON.parse rejects with the given error, or
one that parses to the given record. -/
inductive RawData where
  | bad (e : JsError)
  | good (row : JsonRow)
deriving DecidableEq

/-- One invocation of the fileClient.getData callback: an error, truthy
data, or the falsy end-of-data sentinel. -/
inductive ReadResult where
  | rerr (e : JsError)
  | rdata (d : RawData)
  | reof
deriving DecidableEq

/-- The observable actions streamData performs, in order: SendData
dispatches, StopModel dispatches, and settle attempts on its promise. -/
inductive Event where
  | sendData (modelId : String) (time : JNum) (value : JNum)
  | stopModel (modelId : String)
  | rejectCall (v : RejectValue)
  | resolveCall (modelId : String)
deriving DecidableEq

/-- Whether an event is a SendData sink event. -/
def Event.isSend : Event → Bool
  | Event.sendData _ _ _ => true
  | _ => false

/-- The settle state of a promise. -/
inductive Settle where
  | pending
  | resolvedWith (modelId : String)
  | rejectedWith (v : RejectValue)
deriving DecidableEq

/-- Promise semantics: the first settle attempt in the event trace wins;
later attempts are ignored. -/
def settleOf : List Event → Settle
  | [] => Settle.pending
  | e :: es =>
      match e with
      | Event.resolveCall m => Settle.resolvedWith m
      | Event.rejectCall v => Settle.rejectedWith v
      | _ => settleOf es

/-- Processing of one parsed record in the live-read branch
(StartModel.js lines 178-195): read the timestamp field through the Date
constructor — when the date is invalid, timestamp.toISOString() throws a
RangeError, so no row is queued and no sink event is emitted (none) —
otherwise queue the row for the database and emit the SendData event with
the epoch-second time and the coerced value. -/
def processRecord (model : Model) (rowId : Nat) (row : JsonRow) :
    Option (MetricDataRow × Event) :=
  match newDateTime (row.get model.timestampField) with
  | none => none
  | some t =>
      let value := toNumber (row.get model.metric)
      let mrow : MetricDataRow :=
        MetricDataRow.mk (generateDataId model.filename model.metric t)
          (generateModelId model.filename model.metric) rowId (JsStr.iso t)
          value value
      some (mrow, Event.sendData model.modelId (JNum.num ((t : ℚ) / 1000)) value)

/-- The output of the live read loop: its event trace, the putMetricDatas
batches written, and whether an exception escaped the getData callback. -/
structure ReadLoopOut where
  events : List Event
  putBatches : List (List MetricDataRow)
  crashed : Bool
deriving DecidableEq

/-- The live read loop of streamData (StartModel.js lines 163-209), one
step per fileClient.getData callback invocation, carrying the shared
rowId counter and accumulated rows. A read error dispatches StopModel and
rejects, and ends the stream (per the spec, a read error is the abort
condition of the collaborator). A record that JSON.parse rejects first
rejects the promise with the parse error — the catch block does not
return — and then throws a TypeError reading a field of the undefined
row, aborting the callback and the stream. A parsed record is processed
by processRecord, whose invalid-date RangeError likewise aborts. The
falsy sentinel stringifies the accumulated rows, writes them in one
putMetricDatas batch, and resolves with the model identifier on success,
rejecting with the raw error on failure; the collaborator makes no
further callback after the sentinel. -/
def runReads (model : Model) (putCb : Option JsError) :
    List ReadResult → Nat → List MetricDataRow → ReadLoopOut
  | [], _, _ => ReadLoopOut.mk [] [] false
  | ReadResult.rerr e :: _, _, _ =>
      ReadLoopOut.mk
        [Event.stopModel model.modelId, Event.rejectCall (RejectValue.jsError e)]
        [] false
  | ReadResult.rdata (RawData.bad e) :: _, _, _ =>
      ReadLoopOut.mk [Event.rejectCall (RejectValue.jsError e)] [] true
  | ReadResult.rdata (RawData.good row) :: rs, rowId, rows =>
      match processRecord model rowId row with
      | none => ReadLoopOut.mk [] [] true
      | some pr =>
          let rest := runReads model putCb rs (rowId + 1) (rows ++ [pr.1])
          ReadLoopOut.mk (pr.2 :: rest.events) rest.putBatches rest.crashed
  | ReadResult.reof :: _, _, rows =>
      match putCb with
      | some e =>
          ReadLoopOut.mk [Event.rejectCall (RejectValue.jsError e)] [rows] false
      | none =>
          ReadLoopOut.mk [Event.resolveCall model.modelId] [rows] false

/-- The SendData event emitted for one cached row during replay
(StartModel.js lines 148-155): the time coordinate reads the field named
by the model timestamp field through the Date constructor and divides the
millisecond value by 1000, and the value coordinate coerces the
metric_value field with the Number constructor. -/
def replaySendEvent (model : Model) (r : MetricDataRow) : Event :=
  Event.sendData model.modelId
    (jdiv1000 (getTime (newDateTime (r.get model.timestampField))))
    (toNumber (r.get "metric_value"))

/-- The full result of one streamData invocation. -/
structure StreamResult where
  events : List Event
  putDatasCalls : List (List MetricDataRow)
  fsGetDataCalls : Nat
  crashed : Bool
deriving DecidableEq

/-- streamData (StartModel.js lines 126-213). Inputs: the cached metric
data lookup (a DatabaseGetError wrapper or the parsed row list), the
sequence of fileClient.getData callback invocations, and the
putMetricDatas callback outcome. A lookup error rejects with the wrapper.
A non-empty cached row list is replayed in stored order, one SendData per
row, then the promise resolves with the model identifier and no getData
call is made. Otherwise the live read loop runs over the reads. -/
def streamData (model : Model) (cached : Sum JsError (List MetricDataRow))
    (reads : List ReadResult) (putCb : Option JsError) : StreamResult :=
  match cached with
  | Sum.inl e =>
      StreamResult.mk [Event.rejectCall (RejectValue.dbGetError e)] [] 0 false
  | Sum.inr rows =>
      if rows.length > 0 then
        StreamResult.mk
          (rows.map (replaySendEvent model) ++ [Event.resolveCall model.modelId])
          [] 0 false
      else
        let out := runReads model putCb reads 0 []
        StreamResult.mk out.events out.putBatches 1 out.crashed

/-- The expected clean-run trace of the live read loop on a list of
parsed records: the SendData events and the queued rows, in read order,
with sequence numbers from rowId upward. -/
def expectedStream (model : Model) (rowId : Nat) :
    List JsonRow → List Event × List MetricDataRow
  | [] => ([], [])
  | r :: rs =>
      match processRecord model rowId r with
      | none => ([], [])
      | some pr =>
          let rest := expectedStream model (rowId + 1) rs
          (pr.2 :: rest.1, pr.1 :: rest.2)

/-- One full run of the exported start-model action (StartModel.js lines
225-293): the stats resolution stage, then — only when it left the go
block with resolved bounds — the START_MODEL_SUCCESS dispatch, the
modelClient.createModel call, and the streamData invocation. The executor
of the returned promise contains no resolve call, so the outer settle is
a stats-stage rejection or pending forever; the inner streamData promise
is returned from the generator, not propagated to the caller. -/
structure StartModelRun where
  statsTrace : ResolveTrace
  dispatchedSuccess : Bool
  createdModel : Option (String × ℚ × ℚ)
  streamRun : Option StreamResult
  outerSettle : Settle
deriving DecidableEq

/-- The exported default action, composed from resolveStats and
streamData over explicit collaborator callback outcomes. -/
def startModel (model : Model)
    (metricCb : Option DbCallbackError × Option MetricRec)
    (statsCb : Option JsError × StatsResult) (putCb : Option JsError)
    (cached : Sum JsError (List MetricDataRow)) (reads : List ReadResult)
    (putDatasCb : Option JsError) : StartModelRun :=
  let tr := resolveStats model metricCb statsCb putCb
  match tr.outcome with
  | ResolveOutcome.rejected v =>
      StartModelRun.mk tr false none none (Settle.rejectedWith v)
  | ResolveOutcome.crashed =>
      StartModelRun.mk tr false none none Settle.pending
  | ResolveOutcome.ready mn mx =>
      StartModelRun.mk tr true (some (model.modelId, mn, mx))
        (some (streamData model cached reads putDatasCb)) Settle.pending

/-- One data row of the Chart widget props: only column 0 (the x value
read by the initializer) is relevant. -/
structure ChartDataPoint where
  x0 : JSVal
deriving DecidableEq

/-- The values chartInitalize computes: the per-datapoint time unit, and
the chart range endpoints. -/
structure ChartInitResult where
  unit : JNum
  rangeLo : JNum
  rangeHi : JNum
deriving DecidableEq

/-- The private method chartInitalize of the Chart widget (part_000 lines
119-155): it reads data[0][0] and data[1][0] through the Date
constructor; when the data array has fewer than two rows, indexing the
absent row with [0] throws a TypeError, so no unit or range is computed
(none). Otherwise the unit is second minus first, the range width is unit
times the configured display point count, and the range is [first, first
plus width]. -/
def chartInitalize (displayPointCount : ℚ) (data : List ChartDataPoint) :
    Option ChartInitResult :=
  match data[0]?, data[1]? with
  | some p0, some p1 =>
      let first := getTime (newDateTime p0.x0)
      let second := getTime (newDateTime p1.x0)
      let unit := jsub second first
      let width := jmul unit (JNum.num displayPointCount)
      some (ChartInitResult.mk unit first (jadd first width))
  | _, _ => none

/-- componentDidMount of the Chart widget (part_000 lines 85-94): chart
initialization is triggered whenever the data array length is truthy,
that is, non-zero; the outer some records that the guard fired and wraps
the initializer result. -/
def chartComponentDidMount (displayPointCount : ℚ)
    (data : List ChartDataPoint) : Option (Option ChartInitResult) :=
  if data.length ≠ 0 then some (chartInitalize displayPointCount data)
  else none

/-- Every event produced by processRecord is a SendData sink event. -/
theorem processRecord_send (model : Model) (rowId : Nat) (row : JsonRow) :
    ∀ pr, processRecord model rowId row = some pr → pr.2.isSend = true := by
  intro pr h
  revert h
  unfold processRecord
  cases newDateTime (row.get model.timestampField) with
  | none => intro h; exact Option.noConfusion h
  | some t =>
      intro h
      injection h with h2
      rw [← h2]
      rfl

/-- Every event in the clean-run trace is a SendData sink event. -/
theorem expectedStream_isSend (model : Model) (records : List JsonRow) :
    ∀ (rowId : Nat), ∀ ev ∈ (expectedStream model rowId records).1,
      ev.isSend = true := by
  induction records with
  | nil =>
      intro rowId ev h
      simp [expectedStream] at h
  | cons r rs ih =>
      intro rowId ev h
      revert h
      unfold expectedStream
      cases hd : processRecord model rowId r with
      | none => intro h; simp at h
      | some pr =>
          intro h
          simp only [List.mem_cons] at h
          rcases h with h | h
          · rw [h]; exact processRecord_send model rowId r pr hd
          · exact ih (rowId + 1) ev h

/-- The clean-run trace has one event and one queued row per record. -/
theorem expectedStream_length (model : Model) (records : List JsonRow) :
    ∀ (rowId : Nat),
      (∀ r ∈ records, (newDateTime (r.get model.timestampField)).isSome = true) →
      (expectedStream model rowId records).1.length = records.length ∧
      (expectedStream model rowId records).2.length = records.length := by
  induction records with
  | nil =>
      intro rowId _
      simp [expectedStream]
  | cons r rs ih =>
      intro rowId h
      have hr := h r (List.mem_cons_self r rs)
      cases hd : newDateTime (r.get model.timestampField) with
      | none => rw [hd] at hr; simp at hr
      | some t =>
          have hp : ∃ pr, processRecord model rowId r = some pr := by
            unfold processRecord
            rw [hd]
            exact ⟨_, rfl⟩
          obtain ⟨pr, hp⟩ := hp
          have ihx := ih (rowId + 1) (fun x hx => h x (List.mem_cons_of_mem r hx))
          unfold expectedStream
          rw [hp]
          simp only [List.length_cons]
          exact ⟨by rw [ihx.1], by rw [ihx.2]⟩

/-- A trace of pure SendData events settles nothing: the settle state is
decided by whatever follows it. -/
theorem settleOf_sends_append (es1 es2 : List Event)
    (h : ∀ e ∈ es1, e.isSend = true) :
    settleOf (es1 ++ es2) = settleOf es2 := by
  induction es1 with
  | nil => rfl
  | cons e es ih =>
      have he := h e (List.mem_cons_self e es)
      cases e with
      | sendData a b c =>
          simp only [List.cons_append, settleOf]
          exact ih (fun x hx => h x (List.mem_cons_of_mem _ hx))
      | stopModel m => simp [Event.isSend] at he
      | rejectCall v => simp [Event.isSend] at he
      | resolveCall m => simp [Event.isSend] at he

/-- A StopModel dispatch never occurs among pure SendData events. -/
theorem stopModel_not_mem_sends (es : List Event) (m : String)
    (h : ∀ e ∈ es, e.isSend = true) : Event.stopModel m ∉ es := by
  intro hmem
  have hx := h _ hmem
  simp [Event.isSend] at hx

/-- One-step unrolling of the live read loop on a cleanly processed
record. -/
theorem runReads_good_step (model : Model) (putCb : Option JsError)
    (row : JsonRow) (rs : List ReadResult) (rowId : Nat)
    (rows : List MetricDataRow) (pr : MetricDataRow × Event)
    (hp : processRecord model rowId row = some pr) :
    runReads model putCb (ReadResult.rdata (RawData.good row) :: rs)
        rowId rows =
      ReadLoopOut.mk
        (pr.2 :: (runReads model putCb rs (rowId + 1) (rows ++ [pr.1])).events)
        (runReads model putCb rs (rowId + 1) (rows ++ [pr.1])).putBatches
        (runReads model putCb rs (rowId + 1) (rows ++ [pr.1])).crashed := by
  simp only [runReads, hp]

/-- One-step unrolling of the clean-run trace on a cleanly processed
record. -/
theorem expectedStream_cons (model : Model) (rowId : Nat) (r : JsonRow)
    (rs : List JsonRow) (pr : MetricDataRow × Event)
    (hp : processRecord model rowId r = some pr) :
    expectedStream model rowId (r :: rs) =
      (pr.2 :: (expectedStream model (rowId + 1) rs).1,
        pr.1 :: (expectedStream model (rowId + 1) rs).2) := by
  simp only [expectedStream, hp]

/-- Unrolling of the live read loop over a prefix of cleanly processed
records: the loop emits the clean-run events and carries the queued rows
and the sequence counter into the remaining reads. -/
theorem runReads_goodPrefix (model : Model) (putCb : Option JsError)
    (pre : List JsonRow) (tail : List ReadResult) :
    ∀ (rowId : Nat) (acc : List MetricDataRow),
      (∀ r ∈ pre, (newDateTime (r.get model.timestampField)).isSome = true) →
      runReads model putCb
          (pre.map (fun r => ReadResult.rdata (RawData.good r)) ++ tail)
          rowId acc =
        ReadLoopOut.mk
          ((expectedStream model rowId pre).1 ++
            (runReads model putCb tail (rowId + pre.length)
              (acc ++ (expectedStream model rowId pre).2)).events)
          (runReads model putCb tail (rowId + pre.length)
            (acc ++ (expectedStream model rowId pre).2)).putBatches
          (runReads model putCb tail (rowId + pre.length)
            (acc ++ (expectedStream model rowId pre).2)).crashed := by
  induction pre with
  | nil =>
      intro rowId acc _
      simp [expectedStream]
  | cons r rs ih =>
      intro rowId acc h
      have hr := h r (List.mem_cons_self r rs)
      cases hd : newDateTime (r.get model.timestampField) with
      | none => rw [hd] at hr; simp at hr
      | some t =>
          have hp : ∃ pr, processRecord model rowId r = some pr := by
            unfold processRecord
            rw [hd]
            exact ⟨_, rfl⟩
          obtain ⟨pr, hp⟩ := hp
          have ihx := ih (rowId + 1) (acc ++ [pr.1])
            (fun x hx => h x (List.mem_cons_of_mem r hx))
          simp only [List.map_cons, List.cons_append]
          rw [runReads_good_step model putCb r _ rowId acc pr hp]
          rw [ihx]
          rw [expectedStream_cons model rowId r rs pr hp]
          have harith : rowId + 1 + rs.length = rowId + (r :: rs).length := by
            simp
            omega
          rw [harith]
          have hacc : acc ++ [pr.1] ++ (expectedStream model (rowId + 1) rs).2 =
              acc ++ pr.1 :: (expectedStream model (rowId + 1) rs).2 := by
            simp
          rw [hacc]
          simp

/-- C6: for every model whose metric record is already cached in the
database with both a min field and a max field, the stats resolution
stage uses those cached bounds, makes no getStatistics call on the
filesystem collaborator, and performs no cache write. -/
theorem C6_cached_bounds_skip_filesystem (model : Model) (mn mx : ℚ)
    (u fu nm ty : JSVal) (statsCb : Option JsError × StatsResult)
    (putCb : Option JsError) :
    resolveStats model
        (none, some (MetricRec.mk (some mn) (some mx) u fu nm ty))
        statsCb putCb =
      ResolveTrace.mk 0 [] (ResolveOutcome.ready mn mx) := rfl

/-- C8: a database getMetric callback error that carries a notFound key
is passed through as the raw (absent) result — a cache miss, not a
DatabaseGetError — while any other callback error is wrapped as a
DatabaseGetError, which rejects the stats resolution promise without
touching the filesystem. -/
theorem C8_notFound_is_cache_miss (e : JsError) (results : Option MetricRec)
    (model : Model) (statsCb : Option JsError × StatsResult)
    (putCb : Option JsError) :
    getMetricFromDatabase (some (DbCallbackError.mk true e), results) =
      MetricLookupResult.found results ∧
    getMetricFromDatabase (some (DbCallbackError.mk false e), results) =
      MetricLookupResult.errResult e ∧
    (resolveStats model (some (DbCallbackError.mk false e), results)
        statsCb putCb).outcome =
      ResolveOutcome.rejected (RejectValue.dbGetError e) ∧
    (resolveStats model (some (DbCallbackError.mk false e), results)
        statsCb putCb).fsStatCalls = 0 :=
  ⟨rfl, rfl, rfl, rfl⟩

/-- C9: whatever the collaborator callbacks deliver, the promise returned
by the exported start-model action is never resolved: its executor
contains no resolve call, so the outer settle state is a stats-stage
rejection or stays pending, and the inner streamData resolution is not
propagated. -/
theorem C9_outer_promise_never_resolves (model : Model)
    (metricCb : Option DbCallbackError × Option MetricRec)
    (statsCb : Option JsError × StatsResult) (putCb : Option JsError)
    (cached : Sum JsError (List MetricDataRow)) (reads : List ReadResult)
    (putDatasCb : Option JsError) (mid : String) :
    (startModel model metricCb statsCb putCb cached reads
        putDatasCb).outerSettle ≠ Settle.resolvedWith mid := by
  cases houtcome : (resolveStats model metricCb statsCb putCb).outcome <;>
    simp [startModel, houtcome]

/-- C10: a data array with exactly one point passes the truthy-length
guard of componentDidMount, so chart initialization is triggered, yet
chartInitalize indexes the absent second row (data[1][0]), which throws,
so no datapoint time unit and no chart range are computed; with at least
two points the initializer always produces its values. -/
theorem C10_single_point_chart (cfg : ℚ) (p : ChartDataPoint)
    (data : List ChartDataPoint) (h : 2 ≤ data.length) :
    chartComponentDidMount cfg [p] = some none ∧
    (chartInitalize cfg data).isSome = true := by
  constructor
  · rfl
  · rcases data with _ | ⟨a, _ | ⟨b, rest⟩⟩
    · simp at h
    · simp at h
    · simp [chartInitalize]

/-- C10 witness: the theorem instantiated at a one-point array and a
concrete two-point array. -/
theorem C10_witness :
    2 ≤ [ChartDataPoint.mk (JSVal.vnum 0),
         ChartDataPoint.mk (JSVal.vnum 60000)].length ∧
    (chartComponentDidMount 100 [ChartDataPoint.mk (JSVal.vnum 0)] =
        some none ∧
      (chartInitalize 100
          [ChartDataPoint.mk (JSVal.vnum 0),
           ChartDataPoint.mk (JSVal.vnum 60000)]).isSome = true) :=
  ⟨by decide,
    C10_single_point_chart 100 (ChartDataPoint.mk (JSVal.vnum 0))
      [ChartDataPoint.mk (JSVal.vnum 0),
       ChartDataPoint.mk (JSVal.vnum 60000)] (by decide)⟩

/-- C1 counterexample: with a successful filesystem statistics callback
whose result lacks the requested metric (here cpu), the stats resolution
stage rejects with the raw statistics object itself, which is not a
FilesystemGetError wrapper — refuting the claim that the rejection value
is a FilesystemGetError at this concrete input. -/
theorem C1_counterexample :
    (resolveStats (Model.mk "model1" "data.csv" "cpu" "ts")
        (none,
          some (MetricRec.mk none none JSVal.undef JSVal.undef JSVal.undef
            JSVal.undef))
        (none, StatsResult.mk [("mem", StatBounds.mk 0 1)]) none).outcome =
      ResolveOutcome.rejected
        (RejectValue.statsObject
          (StatsResult.mk [("mem", StatBounds.mk 0 1)])) ∧
    RejectValue.isFsWrapper
        (RejectValue.statsObject
          (StatsResult.mk [("mem", StatBounds.mk 0 1)])) = false := by
  exact ⟨rfl, rfl⟩

/-- Whether a cached metric lookup result is a record carrying both a min
and a max field (the guard of StartModel.js line 246). -/
def hasBothBounds : Option MetricRec → Bool
  | some m => m.min.isSome && m.max.isSome
  | none => false

/-- C1 (amended): when the cached metric lookup misses and the statistics
returned by the filesystem collaborator lack the metric field, the stats
resolution stage rejects its promise with the raw statistics result
itself — not a FilesystemGetError wrapper; the FilesystemGetError wrapper
is the rejection value only when the filesystem collaborator itself
fails. -/
theorem C1_missing_metric_rejects_raw_stats (model : Model)
    (results : Option MetricRec) (stats : StatsResult)
    (putCb : Option JsError) (e : JsError)
    (hmiss : hasBothBounds results = false)
    (hnometric : stats.hasMetric model.metric = false) :
    (resolveStats model (none, results) (none, stats) putCb).outcome =
      ResolveOutcome.rejected (RejectValue.statsObject stats) ∧
    RejectValue.isFsWrapper (RejectValue.statsObject stats) = false ∧
    (resolveStats model (none, results) (some e, stats) putCb).outcome =
      ResolveOutcome.rejected (RejectValue.fsGetError e) := by
  cases results with
  | none =>
      refine ⟨?_, rfl, rfl⟩
      simp [resolveStats, getMetricFromDatabase, resolveStatsMiss,
        getMetricStatsFromFilesystem, hnometric]
  | some m =>
      cases hmn : m.min with
      | some q1 =>
          cases hmx : m.max with
          | some q2 =>
              rw [hasBothBounds, hmn, hmx] at hmiss
              simp at hmiss
          | none =>
              refine ⟨?_, rfl, ?_⟩ <;>
                simp [resolveStats, getMetricFromDatabase, resolveStatsMiss,
                  getMetricStatsFromFilesystem, hmn, hmx, hnometric]
      | none =>
          refine ⟨?_, rfl, ?_⟩ <;>
            simp [resolveStats, getMetricFromDatabase, resolveStatsMiss,
              getMetricStatsFromFilesystem, hmn, hnometric]

/-- C1 witness: the amended theorem instantiated at a concrete model, a
missing cached record, and a statistics object with no cpu entry. -/
theorem C1_witness :
    hasBothBounds none = false ∧
    (StatsResult.mk []).hasMetric
        (Model.mk "m1" "f.csv" "cpu" "ts").metric = false ∧
    ((resolveStats (Model.mk "m1" "f.csv" "cpu" "ts") (none, none)
          (none, StatsResult.mk []) none).outcome =
        ResolveOutcome.rejected
          (RejectValue.statsObject (StatsResult.mk [])) ∧
      RejectValue.isFsWrapper
          (RejectValue.statsObject (StatsResult.mk [])) = false ∧
      (resolveStats (Model.mk "m1" "f.csv" "cpu" "ts") (none, none)
          (some (JsError.mk "enoent"), StatsResult.mk []) none).outcome =
        ResolveOutcome.rejected
          (RejectValue.fsGetError (JsError.mk "enoent"))) :=
  ⟨by decide, by decide,
    C1_missing_metric_rejects_raw_stats (Model.mk "m1" "f.csv" "cpu" "ts")
      none (StatsResult.mk []) none (JsError.mk "enoent") (by decide)
      (by decide)⟩

/-- C7 counterexample: when the cached metric lookup reports notFound
with no record and the filesystem statistics do contain the metric, the
stats resolution stage makes its single getStatistics call, but then
crashes dereferencing the absent record while rebuilding the put payload
(StartModel.js line 269), so no cache write ever happens — refuting, at
this concrete input, the claim that a cache miss leads to exactly one
database write. -/
theorem C7_counterexample :
    resolveStats (Model.mk "model1" "data.csv" "cpu" "ts")
        (some (DbCallbackError.mk true (JsError.mk "NotFoundError")), none)
        (none, StatsResult.mk [("cpu", StatBounds.mk 1 9)]) none =
      ResolveTrace.mk 1 [] ResolveOutcome.crashed := by
  exact rfl

/-- C7 (amended): when the cached metric lookup yields a record that
lacks min or max, the stats resolution stage calls getStatistics exactly
once and then calls putMetric exactly once, with a payload rebuilt from
the cached record, tagged with the model identifier and the file
identifier, and carrying the resolved bounds; a put failure rejects with
a DatabasePutError wrapper and a put success leaves the stage ready with
the bounds. When the lookup yields no record at all, the single
getStatistics call still happens but the stage crashes dereferencing the
absent record before any write. -/
theorem C7_cache_miss_one_get_one_put (model : Model) (m : MetricRec)
    (stats : StatsResult) (putCb : Option JsError) (e e2 : JsError)
    (hmiss : (m.min.isSome && m.max.isSome) = false)
    (hmetric : stats.hasMetric model.metric = true) :
    (resolveStats model (none, some m) (none, stats) putCb).fsStatCalls =
      1 ∧
    (resolveStats model (none, some m) (none, stats) putCb).putCalls =
      [MetricPut.mk m.uid m.fileUid model.modelId m.name m.type
        (stats.get model.metric).min (stats.get model.metric).max] ∧
    (resolveStats model (none, some m) (none, stats) none).outcome =
      ResolveOutcome.ready (stats.get model.metric).min
        (stats.get model.metric).max ∧
    (resolveStats model (none, some m) (none, stats) (some e)).outcome =
      ResolveOutcome.rejected (RejectValue.dbPutError e) ∧
    resolveStats model (some (DbCallbackError.mk true e2), none)
        (none, stats) putCb =
      ResolveTrace.mk 1 [] ResolveOutcome.crashed := by
  have hm : ∀ (cb : Option JsError),
      resolveStats model (none, some m) (none, stats) cb =
        resolveStatsMiss model (some m) (none, stats) cb := by
    intro cb
    cases hmn : m.min with
    | some q1 =>
        cases hmx : m.max with
        | some q2 => rw [hmn, hmx] at hmiss; simp at hmiss
        | none => simp [resolveStats, getMetricFromDatabase, hmn, hmx]
    | none => simp [resolveStats, getMetricFromDatabase, hmn]
  have hput : ∀ (cb : Option JsError),
      resolveStatsMiss model (some m) (none, stats) cb =
        ResolveTrace.mk 1
          [MetricPut.mk m.uid m.fileUid model.modelId m.name m.type
            (stats.get model.metric).min (stats.get model.metric).max]
          (match cb with
            | some err =>
                ResolveOutcome.rejected (RejectValue.dbPutError err)
            | none =>
                ResolveOutcome.ready (stats.get model.metric).min
                  (stats.get model.metric).max) := by
    intro cb
    cases cb <;>
      simp [resolveStatsMiss, getMetricStatsFromFilesystem,
        putMetricStatsIntoDatabase, hmetric]
  refine ⟨?_, ?_, ?_, ?_, ?_⟩
  · rw [hm, hput]
  · rw [hm, hput]
  · rw [hm, hput]
  · rw [hm, hput]
  · simp [resolveStats, getMetricFromDatabase, resolveStatsMiss,
      getMetricStatsFromFilesystem, hmetric]

/-- C7 witness: the amended theorem instantiated at a concrete model, a
cached record with no bounds, statistics containing the metric, and a
failing put callback. -/
theorem C7_witness :
    ((MetricRec.mk none none (JSVal.vstr (JsStr.raw "u1")) JSVal.undef
          JSVal.undef JSVal.undef).min.isSome &&
        (MetricRec.mk none none (JSVal.vstr (JsStr.raw "u1")) JSVal.undef
          JSVal.undef JSVal.undef).max.isSome) = false ∧
    (StatsResult.mk [("cpu", StatBounds.mk 1 9)]).hasMetric
        (Model.mk "m1" "f.csv" "cpu" "ts").metric = true ∧
    ((resolveStats (Model.mk "m1" "f.csv" "cpu" "ts")
          (none,
            some (MetricRec.mk none none (JSVal.vstr (JsStr.raw "u1"))
              JSVal.undef JSVal.undef JSVal.undef))
          (none, StatsResult.mk [("cpu", StatBounds.mk 1 9)])
          (some (JsError.mk "putfail"))).fsStatCalls = 1 ∧
      (resolveStats (Model.mk "m1" "f.csv" "cpu" "ts")
          (none,
            some (MetricRec.mk none none (JSVal.vstr (JsStr.raw "u1"))
              JSVal.undef JSVal.undef JSVal.undef))
          (none, StatsResult.mk [("cpu", StatBounds.mk 1 9)])
          (some (JsError.mk "putfail"))).putCalls =
        [MetricPut.mk
          (MetricRec.mk none none (JSVal.vstr (JsStr.raw "u1")) JSVal.undef
            JSVal.undef JSVal.undef).uid
          (MetricRec.mk none none (JSVal.vstr (JsStr.raw "u1")) JSVal.undef
            JSVal.undef JSVal.undef).fileUid
          (Model.mk "m1" "f.csv" "cpu" "ts").modelId
          (MetricRec.mk none none (JSVal.vstr (JsStr.raw "u1")) JSVal.undef
            JSVal.undef JSVal.undef).name
          (MetricRec.mk none none (JSVal.vstr (JsStr.raw "u1")) JSVal.undef
            JSVal.undef JSVal.undef).type
          ((StatsResult.mk [("cpu", StatBounds.mk 1 9)]).get
            (Model.mk "m1" "f.csv" "cpu" "ts").metric).min
          ((StatsResult.mk [("cpu", StatBounds.mk 1 9)]).get
            (Model.mk "m1" "f.csv" "cpu" "ts").metric).max] ∧
      (resolveStats (Model.mk "m1" "f.csv" "cpu" "ts")
          (none,
            some (MetricRec.mk none none (JSVal.vstr (JsStr.raw "u1"))
              JSVal.undef JSVal.undef JSVal.undef))
          (none, StatsResult.mk [("cpu", StatBounds.mk 1 9)])
          none).outcome =
        ResolveOutcome.ready
          ((StatsResult.mk [("cpu", StatBounds.mk 1 9)]).get
            (Model.mk "m1" "f.csv" "cpu" "ts").metric).min
          ((StatsResult.mk [("cpu", StatBounds.mk 1 9)]).get
            (Model.mk "m1" "f.csv" "cpu" "ts").metric).max ∧
      (resolveStats (Model.mk "m1" "f.csv" "cpu" "ts")
          (none,
            some (MetricRec.mk none none (JSVal.vstr (JsStr.raw "u1"))
              JSVal.undef JSVal.undef JSVal.undef))
          (none, StatsResult.mk [("cpu", StatBounds.mk 1 9)])
          (some (JsError.mk "putfail"))).outcome =
        ResolveOutcome.rejected
          (RejectValue.dbPutError (JsError.mk "putfail")) ∧
      resolveStats (Model.mk "m1" "f.csv" "cpu" "ts")
          (some (DbCallbackError.mk true (JsError.mk "nf")), none)
          (none, StatsResult.mk [("cpu", StatBounds.mk 1 9)])
          (some (JsError.mk "putfail")) =
        ResolveTrace.mk 1 [] ResolveOutcome.crashed) :=
  ⟨by decide, by decide,
    C7_cache_miss_one_get_one_put (Model.mk "m1" "f.csv" "cpu" "ts")
      (MetricRec.mk none none (JSVal.vstr (JsStr.raw "u1")) JSVal.undef
        JSVal.undef JSVal.undef)
      (StatsResult.mk [("cpu", StatBounds.mk 1 9)])
      (some (JsError.mk "putfail")) (JsError.mk "putfail")
      (JsError.mk "nf") (by decide) (by decide)⟩

/-- With an empty cached row list, streamData makes its single getData
call and behaves as the live read loop. -/
theorem streamData_empty_cache (model : Model) (reads : List ReadResult)
    (putCb : Option JsError) :
    streamData model (Sum.inr []) reads putCb =
      StreamResult.mk (runReads model putCb reads 0 []).events
        (runReads model putCb reads 0 []).putBatches 1
        (runReads model putCb reads 0 []).crashed := rfl

/-- C2 counterexample: a single filesystem record that is perfectly
parseable JSON but lacks a timestamp field (the empty object) makes the
live branch throw in toISOString before any sink event or row queueing,
so zero SendData events are emitted, nothing is persisted and nothing is
resolved — refuting, at this concrete input, the claim that N parseable
records always yield N sink events, one batch write and a resolution. -/
theorem C2_counterexample :
    streamData (Model.mk "model1" "data.csv" "cpu" "ts") (Sum.inr [])
        [ReadResult.rdata (RawData.good (JsonRow.mk [])), ReadResult.reof]
        none =
      StreamResult.mk [] [] 1 true := rfl

/-- C2 (amended): for a model with no cached rows, if the filesystem
yields N records that parse successfully and whose timestamp field yields
a valid date, followed by the end sentinel, streamData emits exactly N
SendData sink events, one per record in read order, persists exactly the
N accumulated rows in a single putMetricDatas batch after the sentinel,
and the promise resolves with the model identifier. -/
theorem C2_stream_clean_records (model : Model) (records : List JsonRow)
    (h : ∀ r ∈ records,
      (newDateTime (r.get model.timestampField)).isSome = true) :
    streamData model (Sum.inr [])
        (records.map (fun r => ReadResult.rdata (RawData.good r)) ++
          [ReadResult.reof]) none =
      StreamResult.mk
        ((expectedStream model 0 records).1 ++
          [Event.resolveCall model.modelId])
        [(expectedStream model 0 records).2] 1 false ∧
    (expectedStream model 0 records).1.length = records.length ∧
    (expectedStream model 0 records).2.length = records.length ∧
    settleOf ((expectedStream model 0 records).1 ++
        [Event.resolveCall model.modelId]) =
      Settle.resolvedWith model.modelId := by
  have key := runReads_goodPrefix model none records [ReadResult.reof] 0 [] h
  refine ⟨?_, (expectedStream_length model records 0 h).1,
    (expectedStream_length model records 0 h).2, ?_⟩
  · rw [streamData_empty_cache, key]
    simp [runReads]
  · rw [settleOf_sends_append _ _ (expectedStream_isSend model records 0)]
    rfl

/-- C2 witness: the amended theorem instantiated at one concrete record
with a parseable timestamp and value. -/
theorem C2_witness :
    (∀ r ∈ [JsonRow.mk
        [("ts", JSVal.vstr (JsStr.raw "2000")), ("cpu", JSVal.vnum 7)]],
      (newDateTime
        (r.get (Model.mk "m1" "f.csv" "cpu" "ts").timestampField)).isSome =
        true) ∧
    (streamData (Model.mk "m1" "f.csv" "cpu" "ts") (Sum.inr [])
        ([JsonRow.mk
            [("ts", JSVal.vstr (JsStr.raw "2000")),
             ("cpu", JSVal.vnum 7)]].map
          (fun r => ReadResult.rdata (RawData.good r)) ++
          [ReadResult.reof]) none =
      StreamResult.mk
        ((expectedStream (Model.mk "m1" "f.csv" "cpu" "ts") 0
            [JsonRow.mk
              [("ts", JSVal.vstr (JsStr.raw "2000")),
               ("cpu", JSVal.vnum 7)]]).1 ++
          [Event.resolveCall (Model.mk "m1" "f.csv" "cpu" "ts").modelId])
        [(expectedStream (Model.mk "m1" "f.csv" "cpu" "ts") 0
            [JsonRow.mk
              [("ts", JSVal.vstr (JsStr.raw "2000")),
               ("cpu", JSVal.vnum 7)]]).2] 1 false ∧
      (expectedStream (Model.mk "m1" "f.csv" "cpu" "ts") 0
          [JsonRow.mk
            [("ts", JSVal.vstr (JsStr.raw "2000")),
             ("cpu", JSVal.vnum 7)]]).1.length =
        [JsonRow.mk
          [("ts", JSVal.vstr (JsStr.raw "2000")),
           ("cpu", JSVal.vnum 7)]].length ∧
      (expectedStream (Model.mk "m1" "f.csv" "cpu" "ts") 0
          [JsonRow.mk
            [("ts", JSVal.vstr (JsStr.raw "2000")),
             ("cpu", JSVal.vnum 7)]]).2.length =
        [JsonRow.mk
          [("ts", JSVal.vstr (JsStr.raw "2000")),
           ("cpu", JSVal.vnum 7)]].length ∧
      settleOf
          ((expectedStream (Model.mk "m1" "f.csv" "cpu" "ts") 0
              [JsonRow.mk
                [("ts", JSVal.vstr (JsStr.raw "2000")),
                 ("cpu", JSVal.vnum 7)]]).1 ++
            [Event.resolveCall (Model.mk "m1" "f.csv" "cpu" "ts").modelId]) =
        Settle.resolvedWith (Model.mk "m1" "f.csv" "cpu" "ts").modelId) :=
  ⟨by decide,
    C2_stream_clean_records (Model.mk "m1" "f.csv" "cpu" "ts")
      [JsonRow.mk
        [("ts", JSVal.vstr (JsStr.raw "2000")), ("cpu", JSVal.vnum 7)]]
      (by decide)⟩

/-- C3 counterexample: a model whose timestamp field is named time, with
one cached row written by a previous run of this same code (rows are
stored under the fixed key timestamp), replays a NaN time coordinate —
not the epoch-second value 5 of the stored timestamp — because the replay
reads the field named by the model timestamp field, which the cached row
does not have. This refutes the claim that every cached row replays its
timestamp as epoch-seconds. -/
theorem C3_counterexample :
    streamData (Model.mk "model1" "data.csv" "cpu" "time")
        (Sum.inr
          [MetricDataRow.mk "data.csv!cpu!5000" "data.csv!cpu" 0
            (JsStr.iso 5000) (JNum.num 2) (JNum.num 2)]) [] none =
      StreamResult.mk
        [Event.sendData "model1" JNum.nan (JNum.num 2),
         Event.resolveCall "model1"] [] 0 false := rfl

/-- C3 (amended): for a model whose timestamp field name is the literal
key timestamp under which rows are cached, streamData with a non-empty
cached row list emits one SendData event per cached row in stored order —
each row with an iso-stored timestamp of t milliseconds mapping to the
epoch-second time t / 1000 and its raw value to the Number coercion of
the JSON round trip — makes no filesystem getData call, performs no batch
write, and resolves with the model identifier. The restriction on the
field name is forced by the caching layout: replay reads the field named
by the model timestamp field while rows carry only the six fixed stored
keys, so — as the final conjunct proves — for a model whose timestamp
field name is none of those keys (such as time in the counterexample)
the replayed time coordinate is NaN, the absent field reading as
undefined and yielding an Invalid Date. -/
theorem C3_cached_rows_replayed (model : Model)
    (rows : List MetricDataRow) (reads : List ReadResult)
    (putCb : Option JsError) (hts : model.timestampField = "timestamp")
    (hne : rows ≠ []) :
    streamData model (Sum.inr rows) reads putCb =
      StreamResult.mk
        (rows.map (replaySendEvent model) ++
          [Event.resolveCall model.modelId]) [] 0 false ∧
    (∀ r ∈ rows, ∀ t : Int, r.timestamp = JsStr.iso t →
      replaySendEvent model r =
        Event.sendData model.modelId (JNum.num ((t : ℚ) / 1000))
          (toNumber (jnumJson r.metricValue))) ∧
    settleOf (rows.map (replaySendEvent model) ++
        [Event.resolveCall model.modelId]) =
      Settle.resolvedWith model.modelId ∧
    (∀ (m2 : Model) (r : MetricDataRow),
      m2.timestampField ≠ "uid" → m2.timestampField ≠ "metric_uid" →
      m2.timestampField ≠ "rowid" → m2.timestampField ≠ "timestamp" →
      m2.timestampField ≠ "metric_value" →
      m2.timestampField ≠ "display_value" →
      replaySendEvent m2 r =
        Event.sendData m2.modelId JNum.nan
          (toNumber (r.get "metric_value"))) := by
  refine ⟨?_, ?_, ?_, ?_⟩
  · have hpos : rows.length > 0 := List.length_pos.mpr hne
    simp [streamData, hpos]
  · intro r hr t ht
    have hget : r.get model.timestampField = JSVal.vstr r.timestamp := by
      rw [hts]
      rfl
    unfold replaySendEvent
    rw [hget, ht]
    rfl
  · rw [settleOf_sends_append]
    · rfl
    · intro ev hev
      obtain ⟨r, hr, hre⟩ := List.mem_map.mp hev
      rw [← hre]
      rfl
  · intro m2 r h1 h2 h3 h4 h5 h6
    have hget : r.get m2.timestampField = JSVal.undef := by
      unfold MetricDataRow.get
      rw [if_neg h1, if_neg h2, if_neg h3, if_neg h4, if_neg h5, if_neg h6]
    unfold replaySendEvent
    rw [hget]
    rfl

/-- C3 witness: the amended theorem instantiated at a model whose
timestamp field is the stored key and one concrete cached row. -/
theorem C3_witness :
    (Model.mk "m1" "f.csv" "cpu" "timestamp").timestampField =
      "timestamp" ∧
    [MetricDataRow.mk "f.csv!cpu!2000" "f.csv!cpu" 0 (JsStr.iso 2000)
        (JNum.num 3) (JNum.num 3)] ≠ [] ∧
    (streamData (Model.mk "m1" "f.csv" "cpu" "timestamp")
        (Sum.inr
          [MetricDataRow.mk "f.csv!cpu!2000" "f.csv!cpu" 0 (JsStr.iso 2000)
            (JNum.num 3) (JNum.num 3)]) [] none =
      StreamResult.mk
        ([MetricDataRow.mk "f.csv!cpu!2000" "f.csv!cpu" 0 (JsStr.iso 2000)
            (JNum.num 3) (JNum.num 3)].map
          (replaySendEvent (Model.mk "m1" "f.csv" "cpu" "timestamp")) ++
          [Event.resolveCall
            (Model.mk "m1" "f.csv" "cpu" "timestamp").modelId]) [] 0
        false ∧
      (∀ r ∈ [MetricDataRow.mk "f.csv!cpu!2000" "f.csv!cpu" 0
          (JsStr.iso 2000) (JNum.num 3) (JNum.num 3)],
        ∀ t : Int, r.timestamp = JsStr.iso t →
          replaySendEvent (Model.mk "m1" "f.csv" "cpu" "timestamp") r =
            Event.sendData
              (Model.mk "m1" "f.csv" "cpu" "timestamp").modelId
              (JNum.num ((t : ℚ) / 1000))
              (toNumber (jnumJson r.metricValue))) ∧
      settleOf
          ([MetricDataRow.mk "f.csv!cpu!2000" "f.csv!cpu" 0
              (JsStr.iso 2000) (JNum.num 3) (JNum.num 3)].map
            (replaySendEvent (Model.mk "m1" "f.csv" "cpu" "timestamp")) ++
            [Event.resolveCall
              (Model.mk "m1" "f.csv" "cpu" "timestamp").modelId]) =
        Settle.resolvedWith
          (Model.mk "m1" "f.csv" "cpu" "timestamp").modelId ∧
      (∀ (m2 : Model) (r : MetricDataRow),
        m2.timestampField ≠ "uid" → m2.timestampField ≠ "metric_uid" →
        m2.timestampField ≠ "rowid" → m2.timestampField ≠ "timestamp" →
        m2.timestampField ≠ "metric_value" →
        m2.timestampField ≠ "display_value" →
        replaySendEvent m2 r =
          Event.sendData m2.modelId JNum.nan
            (toNumber (r.get "metric_value")))) :=
  ⟨rfl, by decide,
    C3_cached_rows_replayed (Model.mk "m1" "f.csv" "cpu" "timestamp")
      [MetricDataRow.mk "f.csv!cpu!2000" "f.csv!cpu" 0 (JsStr.iso 2000)
        (JNum.num 3) (JNum.num 3)] [] none rfl (by decide)⟩

/-- C4 counterexample: a record that JSON.parse rejects makes streamData
reject with the parse error and abort the read loop, but the trace
contains no StopModel dispatch — refuting, at this concrete input, the
claim that a stop-model signal is issued upstream on a parse failure
(only the filesystem read-error branch dispatches StopModel). -/
theorem C4_counterexample :
    streamData (Model.mk "model1" "data.csv" "cpu" "ts") (Sum.inr [])
        [ReadResult.rdata (RawData.bad (JsError.mk "SyntaxError"))] none =
      StreamResult.mk
        [Event.rejectCall (RejectValue.jsError (JsError.mk "SyntaxError"))]
        [] 1 true ∧
    Event.stopModel "model1" ∉
      [Event.rejectCall
        (RejectValue.jsError (JsError.mk "SyntaxError"))] :=
  ⟨rfl, by decide⟩

/-- C4 (amended): for every record read that fails to parse, streamData
rejects its promise with the parse error and aborts the stream — the bad
record is neither emitted nor cached, later reads are not processed, and
no batch write happens — but no stop-model signal is issued for a parse
failure; StopModel is dispatched only by the filesystem read-error
branch. -/
theorem C4_parse_error_rejects_no_stop (model : Model) (e : JsError)
    (pre : List JsonRow) (post : List ReadResult)
    (h : ∀ r ∈ pre,
      (newDateTime (r.get model.timestampField)).isSome = true) :
    streamData model (Sum.inr [])
        (pre.map (fun r => ReadResult.rdata (RawData.good r)) ++
          ReadResult.rdata (RawData.bad e) :: post) none =
      StreamResult.mk
        ((expectedStream model 0 pre).1 ++
          [Event.rejectCall (RejectValue.jsError e)]) [] 1 true ∧
    settleOf ((expectedStream model 0 pre).1 ++
        [Event.rejectCall (RejectValue.jsError e)]) =
      Settle.rejectedWith (RejectValue.jsError e) ∧
    Event.stopModel model.modelId ∉
      (expectedStream model 0 pre).1 ++
        [Event.rejectCall (RejectValue.jsError e)] := by
  have key := runReads_goodPrefix model none pre
    (ReadResult.rdata (RawData.bad e) :: post) 0 [] h
  refine ⟨?_, ?_, ?_⟩
  · rw [streamData_empty_cache, key]
    simp [runReads]
  · rw [settleOf_sends_append _ _ (expectedStream_isSend model pre 0)]
    rfl
  · intro hmem
    rw [List.mem_append] at hmem
    rcases hmem with hmem | hmem
    · exact stopModel_not_mem_sends _ _ (expectedStream_isSend model pre 0)
        hmem
    · simp at hmem

/-- C4 witness: the amended theorem instantiated at one clean record
followed by an unparseable one. -/
theorem C4_witness :
    (∀ r ∈ [JsonRow.mk [("ts", JSVal.vnum 1000), ("cpu", JSVal.vnum 4)]],
      (newDateTime
        (r.get (Model.mk "m1" "f.csv" "cpu" "ts").timestampField)).isSome =
        true) ∧
    (streamData (Model.mk "m1" "f.csv" "cpu" "ts") (Sum.inr [])
        ([JsonRow.mk
            [("ts", JSVal.vnum 1000), ("cpu", JSVal.vnum 4)]].map
          (fun r => ReadResult.rdata (RawData.good r)) ++
          ReadResult.rdata (RawData.bad (JsError.mk "SyntaxError")) ::
            [ReadResult.reof]) none =
      StreamResult.mk
        ((expectedStream (Model.mk "m1" "f.csv" "cpu" "ts") 0
            [JsonRow.mk
              [("ts", JSVal.vnum 1000), ("cpu", JSVal.vnum 4)]]).1 ++
          [Event.rejectCall
            (RejectValue.jsError (JsError.mk "SyntaxError"))]) [] 1
        true ∧
      settleOf
          ((expectedStream (Model.mk "m1" "f.csv" "cpu" "ts") 0
              [JsonRow.mk
                [("ts", JSVal.vnum 1000), ("cpu", JSVal.vnum 4)]]).1 ++
            [Event.rejectCall
              (RejectValue.jsError (JsError.mk "SyntaxError"))]) =
        Settle.rejectedWith
          (RejectValue.jsError (JsError.mk "SyntaxError")) ∧
      Event.stopModel (Model.mk "m1" "f.csv" "cpu" "ts").modelId ∉
        (expectedStream (Model.mk "m1" "f.csv" "cpu" "ts") 0
            [JsonRow.mk
              [("ts", JSVal.vnum 1000), ("cpu", JSVal.vnum 4)]]).1 ++
          [Event.rejectCall
            (RejectValue.jsError (JsError.mk "SyntaxError"))]) :=
  ⟨by decide,
    C4_parse_error_rejects_no_stop (Model.mk "m1" "f.csv" "cpu" "ts")
      (JsError.mk "SyntaxError")
      [JsonRow.mk [("ts", JSVal.vnum 1000), ("cpu", JSVal.vnum 4)]]
      [ReadResult.reof] (by decide)⟩

/-- C5: for a filesystem read error during live streaming after any
number of cleanly processed records, streamData dispatches exactly one
StopModel notification — immediately before the rejection, none among the
earlier sink events — rejects the promise with exactly that error, emits
zero SendData events for the erroneous read, and performs no batch
write. -/
theorem C5_read_error_stop_then_reject (model : Model) (e : JsError)
    (pre : List JsonRow) (post : List ReadResult)
    (h : ∀ r ∈ pre,
      (newDateTime (r.get model.timestampField)).isSome = true) :
    streamData model (Sum.inr [])
        (pre.map (fun r => ReadResult.rdata (RawData.good r)) ++
          ReadResult.rerr e :: post) none =
      StreamResult.mk
        ((expectedStream model 0 pre).1 ++
          [Event.stopModel model.modelId,
           Event.rejectCall (RejectValue.jsError e)]) [] 1 false ∧
    settleOf ((expectedStream model 0 pre).1 ++
        [Event.stopModel model.modelId,
         Event.rejectCall (RejectValue.jsError e)]) =
      Settle.rejectedWith (RejectValue.jsError e) ∧
    (∀ ev ∈ (expectedStream model 0 pre).1, ev.isSend = true) ∧
    Event.stopModel model.modelId ∉ (expectedStream model 0 pre).1 := by
  have key := runReads_goodPrefix model none pre
    (ReadResult.rerr e :: post) 0 [] h
  refine ⟨?_, ?_, expectedStream_isSend model pre 0,
    stopModel_not_mem_sends _ _ (expectedStream_isSend model pre 0)⟩
  · rw [streamData_empty_cache, key]
    simp [runReads]
  · rw [settleOf_sends_append _ _ (expectedStream_isSend model pre 0)]
    rfl

/-- C5 witness: the theorem instantiated at one clean record followed by
a read error. -/
theorem C5_witness :
    (∀ r ∈ [JsonRow.mk [("ts", JSVal.vnum 1000), ("cpu", JSVal.vnum 4)]],
      (newDateTime
        (r.get (Model.mk "m1" "f.csv" "cpu" "ts").timestampField)).isSome =
        true) ∧
    (streamData (Model.mk "m1" "f.csv" "cpu" "ts") (Sum.inr [])
        ([JsonRow.mk
            [("ts", JSVal.vnum 1000), ("cpu", JSVal.vnum 4)]].map
          (fun r => ReadResult.rdata (RawData.good r)) ++
          ReadResult.rerr (JsError.mk "readfail") :: []) none =
      StreamResult.mk
        ((expectedStream (Model.mk "m1" "f.csv" "cpu" "ts") 0
            [JsonRow.mk
              [("ts", JSVal.vnum 1000), ("cpu", JSVal.vnum 4)]]).1 ++
          [Event.stopModel (Model.mk "m1" "f.csv" "cpu" "ts").modelId,
           Event.rejectCall
             (RejectValue.jsError (JsError.mk "readfail"))]) [] 1
        false ∧
      settleOf
          ((expectedStream (Model.mk "m1" "f.csv" "cpu" "ts") 0
              [JsonRow.mk
                [("ts", JSVal.vnum 1000), ("cpu", JSVal.vnum 4)]]).1 ++
            [Event.stopModel (Model.mk "m1" "f.csv" "cpu" "ts").modelId,
             Event.rejectCall
               (RejectValue.jsError (JsError.mk "readfail"))]) =
        Settle.rejectedWith
          (RejectValue.jsError (JsError.mk "readfail")) ∧
      (∀ ev ∈ (expectedStream (Model.mk "m1" "f.csv" "cpu" "ts") 0
          [JsonRow.mk
            [("ts", JSVal.vnum 1000), ("cpu", JSVal.vnum 4)]]).1,
        ev.isSend = true) ∧
      Event.stopModel (Model.mk "m1" "f.csv" "cpu" "ts").modelId ∉
        (expectedStream (Model.mk "m1" "f.csv" "cpu" "ts") 0
          [JsonRow.mk
            [("ts", JSVal.vnum 1000), ("cpu", JSVal.vnum 4)]]).1) :=
  ⟨by decide,
    C5_read_error_stop_then_reject (Model.mk "m1" "f.csv" "cpu" "ts")
      (JsError.mk "readfail")
      [JsonRow.mk [("ts", JSVal.vnum 1000), ("cpu", JSVal.vnum 4)]] []
      (by decide)⟩
